import Mathlib

/-!
# Verification of the abfinance-python-api authenticated request pipeline

Shallow embedding of `src/abfinance_api/_http_manager.py` (class
`_V5HTTPManager`): payload canonicalization (`prepare_payload`,
`_clean_query`), request signing (`generate_signature`, `_auth`,
`_prepare_headers`, `_prepare_request`) and the bounded retry loop
(`_submit_request`, `_check_status_code`, `_handle_response`,
`_handle_retryable_error`, `_handle_network_error`, `_handle_json_error`).

Python dictionaries are embedded as association lists (a dict guarantees
distinct keys; theorems that need this carry a `Nodup` hypothesis on the
key list).  In-place mutation of a dictionary argument is embedded by
returning the updated list alongside the result.  Clock readings
(`_helpers.generate_timestamp`, epoch milliseconds) are an input function
of the attempt index.  The SHA-256 based primitives inside
`generate_signature` are abstracted as function parameters; every claim
about signing concerns only which string is signed, not the digest itself.
Sleeps are recorded rather than performed, in integer milliseconds: the
code hands seconds to time.sleep by dividing a millisecond count by 10^3,
an exact rescaling.  time.sleep raises ValueError on a negative duration,
an exception no clause of the loop catches; this raise is modelled at the
one place a negative duration can arise, the data-driven rate-limit
reset delay (see handle_retryable_error).
-/

namespace ABFinance

/-- A scalar parameter value of a request mapping.  Python floats are
embedded as exact rationals: the only float operation in the source,
`query[key] == int(query[key])` in `_clean_query`, holds exactly of the
values it is applied to iff the rational is integral.  The decimal
rendering of a non-integral float is abstracted by the `Rat` rendering. -/
inductive Value where
  | str (s : String)
  | int (n : Int)
  | float (q : ℚ)
  | null
deriving DecidableEq, Repr

/-- `isinstance(value, str)`. -/
def Value.isStr : Value → Bool
  | .str _ => true
  | _ => false

/-- Python `str(v)` for the embedded scalar values (`str(None) = "None"`). -/
def strValue : Value → String
  | .str s => s
  | .int n => toString n
  | .float q => toString q
  | .null => "None"

/-- JSON rendering of one scalar value, as `json.dumps` prints it
(string escaping is abstracted: parameter strings are taken verbatim). -/
def jsonValue : Value → String
  | .str s => "\"" ++ s ++ "\""
  | .int n => toString n
  | .float q => toString q
  | .null => "null"

/-- `json.dumps` on a dict with its default separators, preserving the
insertion order of the association list. -/
def json_dumps (ps : List (String × Value)) : String :=
  "\x7b" ++ String.intercalate ", " (ps.map fun kv => "\"" ++ kv.1 ++ "\": " ++ jsonValue kv.2) ++ "\x7d"

/-- The `string_params` list of `prepare_payload.cast_values`. -/
def string_params : List String := ["qty", "price"]

/-- `cast_values` in `_V5HTTPManager.prepare_payload`: mutates the
parameter dict in place, coercing non-string `qty`/`price` values to
strings.  The returned list is the mutated dict. -/
def cast_values (parameters : List (String × Value)) : List (String × Value) :=
  parameters.map fun kv =>
    if kv.1 ∈ string_params ∧ kv.2.isStr = false then (kv.1, Value.str (strValue kv.2)) else kv

/-- `_V5HTTPManager.prepare_payload`.  Returns the canonical payload
string together with the parameter dict as it stands after the call
(mutated by `cast_values` on non-GET methods).  `sorted(parameters.items())`
compares tuples, which on distinct keys is ordering by key; it is embedded
as an insertion sort by key (stable, like Python's sort), with Python's
string comparison embedded as the lexicographic order on code points,
i.e. on the underlying character lists. -/
def prepare_payload (method : String) (parameters : List (String × Value)) :
    String × List (String × Value) :=
  if method = "GET" then
    (String.intercalate "&"
      (((List.insertionSort (fun a b => a.1.data ≤ b.1.data) parameters).filter
          fun kv => kv.2 ≠ Value.null).map
        fun kv => kv.1 ++ "=" ++ strValue kv.2),
     parameters)
  else
    let parameters := cast_values parameters
    (json_dumps parameters, parameters)

/-- The float fix of `_V5HTTPManager._clean_query`:
`if isinstance(query[key], float) and query[key] == int(query[key])`. -/
def fix_float : Value → Value
  | .float q => if q.den = 1 then .int q.num else .float q
  | v => v

/-- `_V5HTTPManager._clean_query`.  First component: the caller's dict
after the in-place float fixes; second component: the fresh dict with
`None` values removed, which is what `_submit_request` goes on to use. -/
def clean_query (query : Option (List (String × Value))) :
    List (String × Value) × List (String × Value) :=
  match query with
  | none => ([], [])
  | some q =>
      let fixed := q.map fun kv => (kv.1, fix_float kv.2)
      (fixed, fixed.filter fun kv => kv.2 ≠ Value.null)

/-- `generate_signature`.  The two digest primitives (HMAC-SHA256 hex and
RSA PKCS#1 v1.5 base64) are abstracted as function parameters from
(secret, message) to signature; the definition records which scheme is
applied to which message. -/
def generate_signature (use_rsa_authentication : Bool)
    (hmacSha256 rsaSha256 : String → String → String)
    (secret param_str : String) : String :=
  if use_rsa_authentication = false then hmacSha256 secret param_str
  else rsaSha256 secret param_str

/-- `_V5HTTPManager._auth`: `PermissionError` when a key is missing;
otherwise the signature over `str(timestamp) + api_key + str(recv_window) + payload`. -/
def auth (api_key api_secret : Option String) (use_rsa : Bool)
    (hmacSha256 rsaSha256 : String → String → String)
    (payload : String) (recv_window timestamp : Int) : Except String String :=
  match api_key, api_secret with
  | some key, some secret =>
      .ok (generate_signature use_rsa hmacSha256 rsaSha256 secret
        (toString timestamp ++ key ++ toString recv_window ++ payload))
  | _, _ => .error "Authenticated endpoints require keys."

/-- The header set built by `_V5HTTPManager._prepare_headers`. -/
structure AuthHeaders where
  contentType : String
  apiKey : String
  sign : String
  signType : String
  timestamp : String
  recvWindow : String
deriving DecidableEq, Repr

/-- `_V5HTTPManager._prepare_headers` (the `timestamp` it samples from the
clock is passed in). -/
def prepare_headers (api_key api_secret : Option String) (use_rsa : Bool)
    (hmacSha256 rsaSha256 : String → String → String)
    (payload : String) (recv_window timestamp : Int) : Except String AuthHeaders :=
  match auth api_key api_secret use_rsa hmacSha256 rsaSha256 payload recv_window timestamp with
  | .error e => .error e
  | .ok signature =>
      .ok ⟨"application/json", api_key.getD "", signature, "2",
           toString timestamp, toString recv_window⟩

/-- A prepared transport request: for GET with a non-empty payload the
payload travels as the query string appended to the path, otherwise as the
body (`_V5HTTPManager._prepare_request`). -/
structure PreparedRequest where
  path : String
  query : String
  body : String
  headers : Option AuthHeaders
deriving DecidableEq, Repr

/-- `_V5HTTPManager._prepare_request`. -/
def prepare_request (method path : String) (params : String)
    (headers : Option AuthHeaders) : PreparedRequest :=
  if method = "GET" ∧ params ≠ "" then ⟨path, params, "", headers⟩
  else ⟨path, "", params, headers⟩

/-- The payload string a prepared request transmits: its query string for
GET (when present), its body otherwise. -/
def sent_payload (method : String) (req : PreparedRequest) : String :=
  if method = "GET" ∧ req.query ≠ "" then req.query else req.body

/-- One authenticated attempt of `_submit_request` up to the point the
request object exists: build the canonical payload, sign it, assemble
the request. -/
def build_attempt (api_key api_secret : Option String) (use_rsa : Bool)
    (hmacSha256 rsaSha256 : String → String → String)
    (method path : String) (query : List (String × Value))
    (recv_window timestamp : Int) : Except String PreparedRequest :=
  let req_params := (prepare_payload method query).1
  match prepare_headers api_key api_secret use_rsa hmacSha256 rsaSha256
      req_params recv_window timestamp with
  | .error e => .error e
  | .ok hs => .ok (prepare_request method path req_params (some hs))

/-- The decoded JSON envelope of a 200 response (`s_json`): every claim
concerns only `retCode`, `retMsg` and the remaining payload, abstracted as
one opaque string. -/
structure ResponseJson where
  retCode : Int
  retMsg : String
  result : String
deriving DecidableEq, Repr

/-- The body of a transport response: either not valid JSON
(`JSONDecodeError` from `response.json()`) or a decoded envelope. -/
inductive ResponseBody where
  | invalidJson
  | json (j : ResponseJson)
deriving DecidableEq, Repr

/-- What one `self.client.send` yields: a transport-level exception
(`ReadTimeout` / `SSLError` / `ConnectionError`) or a response with an
HTTP status, a body, and the optional `X-Bapi-Limit-Reset-Timestamp`
header (epoch milliseconds). -/
inductive TransportResult where
  | netError
  | reply (status : Nat) (body : ResponseBody) (limitResetHeader : Option Int)
deriving DecidableEq, Repr

/-- How one call to `_submit_request` ends, as seen by the caller. -/
inductive Outcome where
  /-- Normal return of `s_json` (plus elapsed/headers per configuration). -/
  | success (j : ResponseJson)
  /-- `FailedRequestError` raised by `_check_status_code`; carries the
  HTTP status and the message chosen there. -/
  | httpError (status : Nat) (message : String)
  /-- `InvalidRequestError` with the exchange's error code. -/
  | invalidRequest (code : Int)
  /-- A transport exception re-raised by `_handle_network_error`. -/
  | networkError
  /-- `FailedRequestError` 409 from `_handle_json_error`. -/
  | decodeConflict
  /-- `FailedRequestError` 400 "Retries exceeded maximum" after the loop. -/
  | retriesExceeded
  /-- `KeyError` on the missing rate-limit reset header in
  `_handle_retryable_error` (uncaught by the loop). -/
  | missingResetHeader
  /-- `ValueError` from `time.sleep` in `_handle_retryable_error` when the
  computed duration is negative — `time.sleep` rejects negative values —
  (uncaught by the loop). -/
  | sleepValueError
deriving DecidableEq, Repr

/-- The retry-relevant configuration fields of `_V5HTTPManager`
(`retry_delay` is in seconds, `recv_window` in milliseconds). -/
structure Manager where
  force_retry : Bool
  retry_codes : List Int
  ignore_codes : List Int
  max_retries : Nat
  retry_delay : Int
  recv_window : Int
deriving DecidableEq, Repr

/-- `_V5HTTPManager._handle_retryable_error`: on success, the updated
`recv_window` together with the duration handed to `time.sleep`, recorded
in milliseconds (the code passes seconds, dividing a millisecond count by
`10 ** 3`, an exact rescaling).  The `.error` cases are the exceptions the
function itself raises, which no `except` clause of the loop catches:
for code 10006, `response.headers[...]` raises `KeyError` when the reset
header is absent, and the final `time.sleep(delay_time)` raises
`ValueError` when the computed duration
`limit_reset_time - generate_timestamp()` (not floored) is negative —
`time.sleep` rejects negative values.  The sleeps of the other branches
use the configured `retry_delay` (RetryPolicy `baseDelaySeconds ≥ 0`, a
nonnegative constant, default 3), so the data-driven 10006 duration is
the one place a negative duration arises, and the raise is modelled
there. -/
def handle_retryable_error (cfg : Manager) (error_code : Int)
    (limitResetHeader : Option Int) (nowMillis : Int) (recv_window : Int) :
    Except Outcome (Int × Int) :=
  if error_code = 10002 then .ok (recv_window + 2500, cfg.retry_delay * 1000)
  else if error_code = 10006 then
    match limitResetHeader with
    | some limit_reset_time =>
        if limit_reset_time - nowMillis < 0 then .error .sleepValueError
        else .ok (recv_window, limit_reset_time - nowMillis)
    | none => .error .missingResetHeader
  else .ok (recv_window, cfg.retry_delay * 1000)

/-- The classification `_handle_response` performs on a decoded (or
undecodable) 200 body before the loop reacts to it. -/
inductive Classified where
  | success (j : ResponseJson)
  | retrySignal (recv_window : Int) (sleepMillis : Int)
  | invalid (code : Int)
  /-- An exception raised inside `_handle_retryable_error` that the loop
  does not catch; carries the terminal outcome. -/
  | crash (o : Outcome)
  | decodeFail
deriving DecidableEq, Repr

/-- `_V5HTTPManager._handle_response`.  `if s_json.get("retCode")` is
integer truthiness: the error branch runs exactly when `retCode ≠ 0`. -/
def handle_response (cfg : Manager) (body : ResponseBody)
    (limitResetHeader : Option Int) (nowMillis : Int) (recv_window : Int) : Classified :=
  match body with
  | .invalidJson => .decodeFail
  | .json j =>
      if j.retCode ≠ 0 then
        if j.retCode ∈ cfg.retry_codes then
          match handle_retryable_error cfg j.retCode limitResetHeader nowMillis recv_window with
          | .ok (rw, s) => .retrySignal rw s
          | .error o => .crash o
        else if j.retCode ∈ cfg.ignore_codes then .success j
        else .invalid j.retCode
      else .success j

/-- `_V5HTTPManager._check_status_code`: `some` is the terminal
`FailedRequestError` raised for a non-200 status. -/
def check_status_code (status : Nat) : Option Outcome :=
  if status ≠ 200 then
    some (.httpError status
      (if status = 403 then "You have breached the IP rate limit or your IP is from the USA."
       else "HTTP status code is not 200."))
  else none

/-- The observable trace of one `_submit_request` call: its outcome, how
many times `self.client.send` ran, the durations handed to `time.sleep`
(milliseconds, in order), the `recv_window` used by each attempt, and how many
times `_handle_response` was entered. -/
structure Trace where
  outcome : Outcome
  sends : Nat
  sleeps : List Int
  recvWindows : List Int
  classified : Nat
deriving DecidableEq, Repr

/-- The `while retries_attempted > 0` loop of `_submit_request`, with the
remaining attempt count as fuel (the counter is decremented on entry, so
a handler invoked during the iteration sees `fuel`, the value after the
decrement).  `events i` is what the transport returns for the i-th send
of the call; `now i` is the clock (epoch ms) during the i-th iteration. -/
def submitLoop (cfg : Manager) (events : Nat → TransportResult) (now : Nat → Int) :
    Nat → Nat → Int → Trace
  | 0, _, _ => ⟨.retriesExceeded, 0, [], [], 0⟩
  | fuel + 1, idx, rw =>
    match events idx with
    | .netError =>
        -- `_handle_network_error`: retry only with force_retry and attempts left
        if cfg.force_retry = true ∧ 0 < fuel then
          let t := submitLoop cfg events now fuel (idx + 1) rw
          ⟨t.outcome, t.sends + 1, cfg.retry_delay * 1000 :: t.sleeps, rw :: t.recvWindows, t.classified⟩
        else ⟨.networkError, 1, [], [rw], 0⟩
    | .reply status body limitResetHeader =>
        match check_status_code status with
        | some terminal => ⟨terminal, 1, [], [rw], 0⟩
        | none =>
          match handle_response cfg body limitResetHeader (now idx) rw with
          | .success j => ⟨.success j, 1, [], [rw], 1⟩
          | .invalid c => ⟨.invalidRequest c, 1, [], [rw], 1⟩
          | .crash o => ⟨o, 1, [], [rw], 1⟩
          | .retrySignal rw' s =>
              -- `_RetryableAPIError` caught: adopt the updated recv_window
              let t := submitLoop cfg events now fuel (idx + 1) rw'
              ⟨t.outcome, t.sends + 1, s :: t.sleeps, rw :: t.recvWindows, t.classified + 1⟩
          | .decodeFail =>
              -- `_handle_json_error`
              if cfg.force_retry = true ∧ 0 < fuel then
                let t := submitLoop cfg events now fuel (idx + 1) rw
                ⟨t.outcome, t.sends + 1, cfg.retry_delay * 1000 :: t.sleeps, rw :: t.recvWindows, t.classified + 1⟩
              else ⟨.decodeConflict, 1, [], [rw], 1⟩

/-- One call to `_V5HTTPManager._submit_request`, from the initial
`recv_window = self.recv_window` and `retries_attempted = self.max_retries`. -/
def submit_request (cfg : Manager) (events : Nat → TransportResult) (now : Nat → Int) : Trace :=
  submitLoop cfg events now cfg.max_retries 0 cfg.recv_window

/-- Default retryable codes installed by `__post_init__`. -/
def default_retry_codes : List Int := [10002, 10006, 30034, 30035, 130035, 130150]

/-- `__post_init__` on `retry_codes`: an empty (falsy) set is replaced by
the built-in default. -/
def post_init_retry_codes (retry_codes : List Int) : List Int :=
  if retry_codes = [] then default_retry_codes else retry_codes

/-- `__post_init__` on `ignore_codes`: `if not self.ignore_codes:
self.ignore_codes = set()` replaces an empty set by an empty set. -/
def post_init_ignore_codes (ignore_codes : List Int) : List Int :=
  if ignore_codes = [] then [] else ignore_codes

/-! ## Theorems -/

/-- C1: for every authenticated attempt, the string signed is
timestamp + apiKey + receiveWindow + payload, where the payload is
character-for-character the string transmitted (query string for GET,
body otherwise) and timestamp and receive-window are character-for-character
the X-BAPI-TIMESTAMP and X-BAPI-RECV-WINDOW header values of that same
attempt. -/
theorem signature_covers_transmitted_payload
    (hmacSha256 rsaSha256 : String → String → String) (use_rsa : Bool)
    (key secret method path : String) (query : List (String × Value))
    (recv_window timestamp : Int) :
    ∃ req : PreparedRequest,
      build_attempt (some key) (some secret) use_rsa hmacSha256 rsaSha256
          method path query recv_window timestamp = .ok req ∧
      ∃ hs : AuthHeaders, req.headers = some hs ∧
        hs.timestamp = toString timestamp ∧
        hs.recvWindow = toString recv_window ∧
        sent_payload method req = (prepare_payload method query).1 ∧
        hs.sign = generate_signature use_rsa hmacSha256 rsaSha256 secret
          (hs.timestamp ++ key ++ hs.recvWindow ++ sent_payload method req) := by
  by_cases hc : method = "GET" ∧ (prepare_payload method query).1 ≠ ""
  · obtain ⟨hm, hp⟩ := hc
    subst hm
    refine ⟨⟨path, (prepare_payload "GET" query).1, "", some
      ⟨"application/json", key,
        generate_signature use_rsa hmacSha256 rsaSha256 secret
          (toString timestamp ++ key ++ toString recv_window ++ (prepare_payload "GET" query).1),
        "2", toString timestamp, toString recv_window⟩⟩, ?_, ?_⟩
    · simp [build_attempt, prepare_headers, auth, prepare_request, hp]
    · exact ⟨_, rfl, rfl, rfl, by simp [sent_payload, hp], by simp [sent_payload, hp]⟩
  · refine ⟨⟨path, "", (prepare_payload method query).1, some
      ⟨"application/json", key,
        generate_signature use_rsa hmacSha256 rsaSha256 secret
          (toString timestamp ++ key ++ toString recv_window ++ (prepare_payload method query).1),
        "2", toString timestamp, toString recv_window⟩⟩, ?_, ?_⟩
    · simp [build_attempt, prepare_headers, auth, prepare_request, hc]
    · exact ⟨_, rfl, rfl, rfl, by simp [sent_payload], by simp [sent_payload]⟩

/-- Each iteration of the loop performs exactly one send, so the send
count is bounded by the fuel (the remaining attempt counter). -/
theorem submitLoop_sends_le (cfg : Manager) (events : Nat → TransportResult)
    (now : Nat → Int) : ∀ (fuel idx : Nat) (rw : Int),
    (submitLoop cfg events now fuel idx rw).sends ≤ fuel := by
  intro fuel
  induction fuel with
  | zero => intro idx rw; simp [submitLoop]
  | succ n ih =>
    intro idx rw
    cases hev : events idx with
    | netError =>
      by_cases hf : cfg.force_retry = true ∧ 0 < n
      · simpa [submitLoop, hev, hf] using Nat.succ_le_succ (ih (idx + 1) rw)
      · simp [submitLoop, hev, hf]
    | reply status body hdr =>
      cases hcs : check_status_code status with
      | some t => simp [submitLoop, hev, hcs]
      | none =>
        cases hr : handle_response cfg body hdr (now idx) rw with
        | success j => simp [submitLoop, hev, hcs, hr]
        | invalid c => simp [submitLoop, hev, hcs, hr]
        | crash o => simp [submitLoop, hev, hcs, hr]
        | retrySignal rw' s =>
          simpa [submitLoop, hev, hcs, hr] using Nat.succ_le_succ (ih (idx + 1) rw')
        | decodeFail =>
          by_cases hf : cfg.force_retry = true ∧ 0 < n
          · simpa [submitLoop, hev, hcs, hr, hf] using Nat.succ_le_succ (ih (idx + 1) rw)
          · simp [submitLoop, hev, hcs, hr, hf]

/-- C2: one call to `_submit_request` performs at most `max_retries`
transport sends; the attempt counter is the structurally decreasing fuel
of `submitLoop`, so the loop runs at most `max_retries` iterations, one
send per iteration. -/
theorem submit_request_sends_le_max_retries (cfg : Manager)
    (events : Nat → TransportResult) (now : Nat → Int) :
    (submit_request cfg events now).sends ≤ cfg.max_retries :=
  submitLoop_sends_le cfg events now cfg.max_retries 0 cfg.recv_window

/-- C3: a transport response with a non-200 HTTP status terminates the
call at once with the `FailedRequestError` carrying that status — one
send, no sleep, no retry, the response classifier never entered —
with the geo-block hint for 403 and the generic message otherwise,
regardless of the retry configuration and of the attempts remaining. -/
theorem non200_status_terminal (cfg : Manager) (events : Nat → TransportResult)
    (now : Nat → Int) (fuel idx : Nat) (rw : Int) (status : Nat)
    (body : ResponseBody) (hdr : Option Int)
    (hev : events idx = .reply status body hdr) (hst : status ≠ 200) :
    submitLoop cfg events now (fuel + 1) idx rw =
      ⟨.httpError status
        (if status = 403 then "You have breached the IP rate limit or your IP is from the USA."
         else "HTTP status code is not 200."),
       1, [], [rw], 0⟩ := by
  simp [submitLoop, hev, check_status_code, hst]

/-- C3 witness: a 403 reply on a fresh call with retries configured still
ends immediately in the HttpError outcome with the geo-block message. -/
theorem non200_status_terminal_witness :
    submitLoop ⟨true, [10002], [], 3, 3, 5000⟩
        (fun _ => .reply 403 (.json ⟨0, "", ""⟩) none) (fun _ => 0) 3 0 5000 =
      ⟨.httpError 403 "You have breached the IP rate limit or your IP is from the USA.",
       1, [], [5000], 0⟩ := by
  have h := non200_status_terminal ⟨true, [10002], [], 3, 3, 5000⟩
    (fun _ => .reply 403 (.json ⟨0, "", ""⟩) none) (fun _ => 0) 2 0 5000 403
    (.json ⟨0, "", ""⟩) none rfl (by decide)
  simpa using h

/-- One-step unfolding of the loop for a retryable application signal:
the iteration adopts the updated recv_window, records the sleep, and
loops (stated with symbolic fuel so the next iteration stays folded). -/
theorem submitLoop_step_retry (cfg : Manager) (events : Nat → TransportResult)
    (now : Nat → Int) (fuel idx : Nat) (rw : Int) (status : Nat)
    (body : ResponseBody) (hdr : Option Int) (rw' s : Int)
    (hev : events idx = .reply status body hdr)
    (hcs : check_status_code status = none)
    (hr : handle_response cfg body hdr (now idx) rw = .retrySignal rw' s) :
    submitLoop cfg events now (fuel + 1) idx rw =
      ⟨(submitLoop cfg events now fuel (idx + 1) rw').outcome,
       (submitLoop cfg events now fuel (idx + 1) rw').sends + 1,
       s :: (submitLoop cfg events now fuel (idx + 1) rw').sleeps,
       rw :: (submitLoop cfg events now fuel (idx + 1) rw').recvWindows,
       (submitLoop cfg events now fuel (idx + 1) rw').classified + 1⟩ := by
  simp [submitLoop, hev, hcs, hr]

/-- One-step unfolding of the loop for a transport error with force-retry
on and attempts remaining. -/
theorem submitLoop_step_netError (cfg : Manager) (events : Nat → TransportResult)
    (now : Nat → Int) (fuel idx : Nat) (rw : Int)
    (hev : events idx = .netError) (hf : cfg.force_retry = true) (hfuel : 0 < fuel) :
    submitLoop cfg events now (fuel + 1) idx rw =
      ⟨(submitLoop cfg events now fuel (idx + 1) rw).outcome,
       (submitLoop cfg events now fuel (idx + 1) rw).sends + 1,
       cfg.retry_delay * 1000 :: (submitLoop cfg events now fuel (idx + 1) rw).sleeps,
       rw :: (submitLoop cfg events now fuel (idx + 1) rw).recvWindows,
       (submitLoop cfg events now fuel (idx + 1) rw).classified⟩ := by
  simp [submitLoop, hev, hf, hfuel]

/-- Every iteration with fuel left records the recv_window it was entered
with as the head of the recv-window trace. -/
theorem submitLoop_recvWindows_head (cfg : Manager) (events : Nat → TransportResult)
    (now : Nat → Int) (fuel idx : Nat) (rw : Int) :
    ∃ rest, (submitLoop cfg events now (fuel + 1) idx rw).recvWindows = rw :: rest := by
  cases hev : events idx with
  | netError =>
    by_cases hf : cfg.force_retry = true ∧ 0 < fuel
    · exact ⟨(submitLoop cfg events now fuel (idx + 1) rw).recvWindows,
        by simp [submitLoop, hev, hf]⟩
    · exact ⟨[], by simp [submitLoop, hev, hf]⟩
  | reply status body hdr =>
    cases hcs : check_status_code status with
    | some t => exact ⟨[], by simp [submitLoop, hev, hcs]⟩
    | none =>
      cases hr : handle_response cfg body hdr (now idx) rw with
      | success j => exact ⟨[], by simp [submitLoop, hev, hcs, hr]⟩
      | invalid c => exact ⟨[], by simp [submitLoop, hev, hcs, hr]⟩
      | crash o => exact ⟨[], by simp [submitLoop, hev, hcs, hr]⟩
      | retrySignal rw' s =>
        exact ⟨(submitLoop cfg events now fuel (idx + 1) rw').recvWindows,
          by simp [submitLoop, hev, hcs, hr]⟩
      | decodeFail =>
        by_cases hf : cfg.force_retry = true ∧ 0 < fuel
        · exact ⟨(submitLoop cfg events now fuel (idx + 1) rw).recvWindows,
            by simp [submitLoop, hev, hcs, hr, hf]⟩
        · exact ⟨[], by simp [submitLoop, hev, hcs, hr, hf]⟩

/-- C4: a decoded response with the configured clock-skew code 10002
makes the next attempt run with a receive-window exactly 2500 ms larger
than the current attempt's. -/
theorem clock_skew_adds_2500 (cfg : Manager) (events : Nat → TransportResult)
    (now : Nat → Int) (n idx : Nat) (rw : Int) (j : ResponseJson) (hdr : Option Int)
    (hev : events idx = .reply 200 (.json j) hdr) (hcode : j.retCode = 10002)
    (hretry : (10002 : Int) ∈ cfg.retry_codes) :
    (submitLoop cfg events now (n + 2) idx rw).recvWindows.take 2 = [rw, rw + 2500] := by
  have hhr : handle_response cfg (.json j) hdr (now idx) rw
      = .retrySignal (rw + 2500) (cfg.retry_delay * 1000) := by
    simp [handle_response, hcode, hretry, handle_retryable_error]
  obtain ⟨rest, hrest⟩ := submitLoop_recvWindows_head cfg events now n (idx + 1) (rw + 2500)
  have hstep := submitLoop_step_retry cfg events now (n + 1) idx rw 200 (.json j) hdr
    (rw + 2500) (cfg.retry_delay * 1000) hev (by simp [check_status_code]) hhr
  show (submitLoop cfg events now (n + 1 + 1) idx rw).recvWindows.take 2 = _
  rw [hstep]
  simp [hrest]

/-- C4 witness: starting from recv_window 5000, the attempt after a
10002 response runs with recv_window 5000 + 2500. -/
theorem clock_skew_adds_2500_witness :
    (submitLoop ⟨false, [10002], [], 3, 3, 5000⟩
        (fun _ => .reply 200 (.json ⟨10002, "err", "r"⟩) none) (fun _ => 0)
        3 0 5000).recvWindows.take 2 = [5000, 5000 + 2500] :=
  clock_skew_adds_2500 ⟨false, [10002], [], 3, 3, 5000⟩
    (fun _ => .reply 200 (.json ⟨10002, "err", "r"⟩) none) (fun _ => 0)
    1 0 5000 ⟨10002, "err", "r"⟩ none rfl rfl (by decide)

/-- C5 counterexample: with a reset timestamp (1000) already in the past
(now = 2000), no sleep of the claimed floored-at-zero duration happens
and no next attempt runs at all: the negative duration handed to
time.sleep raises an uncaught ValueError, ending the call after this
single attempt. -/
theorem rate_limit_past_reset_no_retry :
    submit_request ⟨false, [10006], [], 3, 3, 5000⟩
        (fun _ => .reply 200 (.json ⟨10006, "rate", "r"⟩) (some 1000))
        (fun _ => 2000) = ⟨.sleepValueError, 1, [], [5000], 1⟩ ∧
    (submit_request ⟨false, [10006], [], 3, 3, 5000⟩
        (fun _ => .reply 200 (.json ⟨10006, "rate", "r"⟩) (some 1000))
        (fun _ => 2000)).sleeps.head? ≠ some (max (1000 - 2000 : Int) 0) := by
  exact ⟨by decide, by decide⟩

/-- C5 (amended): a decoded response with the configured rate-limit code
10006 carrying a limit-reset header splits on the sign of reset-time
minus current-time.  If the reset time has not passed, the orchestrator
sleeps for exactly that difference (which there equals the floored value)
before the next attempt and the next attempt runs with the receive-window
unchanged.  If the reset time is already past, the negative duration
makes time.sleep raise an uncaught ValueError: the call terminates after
this single attempt with no sleep, no retry and no receive-window
change. -/
theorem rate_limit_reset_split (cfg : Manager) (events : Nat → TransportResult)
    (now : Nat → Int) (n idx : Nat) (rw : Int) (j : ResponseJson) (reset : Int)
    (hev : events idx = .reply 200 (.json j) (some reset)) (hcode : j.retCode = 10006)
    (hretry : (10006 : Int) ∈ cfg.retry_codes) :
    (now idx ≤ reset →
      (submitLoop cfg events now (n + 2) idx rw).recvWindows.take 2 = [rw, rw] ∧
      (submitLoop cfg events now (n + 2) idx rw).sleeps.head? = some (reset - now idx)) ∧
    (reset < now idx →
      submitLoop cfg events now (n + 2) idx rw = ⟨.sleepValueError, 1, [], [rw], 1⟩) := by
  constructor
  · intro hle
    have hok : ¬ reset - now idx < 0 := by omega
    have hhr : handle_response cfg (.json j) (some reset) (now idx) rw
        = .retrySignal rw (reset - now idx) := by
      simp [handle_response, hcode, hretry, handle_retryable_error, hok]
    obtain ⟨rest, hrest⟩ := submitLoop_recvWindows_head cfg events now n (idx + 1) rw
    have hstep := submitLoop_step_retry cfg events now (n + 1) idx rw 200 (.json j)
      (some reset) rw (reset - now idx) hev (by simp [check_status_code]) hhr
    constructor
    · show (submitLoop cfg events now (n + 1 + 1) idx rw).recvWindows.take 2 = _
      rw [hstep]
      simp [hrest]
    · show (submitLoop cfg events now (n + 1 + 1) idx rw).sleeps.head? = _
      rw [hstep]
      simp
  · intro hlt
    have hneg : reset - now idx < 0 := by omega
    have hhr : handle_response cfg (.json j) (some reset) (now idx) rw
        = .crash .sleepValueError := by
      simp [handle_response, hcode, hretry, handle_retryable_error, hneg]
    show submitLoop cfg events now (n + 1 + 1) idx rw = _
    simp [submitLoop, hev, check_status_code, hhr]

/-- C5 witness: reset at 99000 with the clock at 1000 sleeps
99000 − 1000 ms and keeps recv_window at 5000 for the next attempt;
reset at 1000 with the clock at 2000 ends the call at once with the
ValueError outcome. -/
theorem rate_limit_reset_split_witness :
    ((submitLoop ⟨false, [10006], [], 3, 3, 5000⟩
        (fun _ => .reply 200 (.json ⟨10006, "rate", "r"⟩) (some 99000))
        (fun _ => 1000) 3 0 5000).recvWindows.take 2 = [5000, 5000] ∧
     (submitLoop ⟨false, [10006], [], 3, 3, 5000⟩
        (fun _ => .reply 200 (.json ⟨10006, "rate", "r"⟩) (some 99000))
        (fun _ => 1000) 3 0 5000).sleeps.head? = some (99000 - 1000 : Int)) ∧
    submitLoop ⟨false, [10006], [], 3, 3, 5000⟩
        (fun _ => .reply 200 (.json ⟨10006, "rate", "r"⟩) (some 1000))
        (fun _ => 2000) 3 0 5000 = ⟨.sleepValueError, 1, [], [5000], 1⟩ := by
  constructor
  · exact (rate_limit_reset_split ⟨false, [10006], [], 3, 3, 5000⟩
      (fun _ => .reply 200 (.json ⟨10006, "rate", "r"⟩) (some 99000))
      (fun _ => 1000) 1 0 5000 ⟨10006, "rate", "r"⟩ 99000 rfl rfl (by decide)).1 (by decide)
  · exact (rate_limit_reset_split ⟨false, [10006], [], 3, 3, 5000⟩
      (fun _ => .reply 200 (.json ⟨10006, "rate", "r"⟩) (some 1000))
      (fun _ => 2000) 1 0 5000 ⟨10006, "rate", "r"⟩ 1000 rfl rfl (by decide)).2 (by decide)

/-- With force_retry on and every send a transport error, the last
attempt re-raises the transport exception: the loop never reaches its
exhaustion epilogue and the classifier is never entered. -/
theorem submitLoop_all_netError (cfg : Manager) (events : Nat → TransportResult)
    (now : Nat → Int) (hf : cfg.force_retry = true)
    (hev : ∀ i, events i = .netError) : ∀ (fuel idx : Nat) (rw : Int),
    submitLoop cfg events now (fuel + 1) idx rw =
      ⟨.networkError, fuel + 1, List.replicate fuel (cfg.retry_delay * 1000),
       List.replicate (fuel + 1) rw, 0⟩ := by
  intro fuel
  induction fuel with
  | zero => intro idx rw; simp [submitLoop, hev, hf]
  | succ n ih =>
    intro idx rw
    have hstep := submitLoop_step_netError cfg events now (n + 1) idx rw
      (hev idx) hf (Nat.succ_pos n)
    rw [hstep, ih (idx + 1) rw]
    simp [List.replicate_succ]

/-- C6 counterexample: with forceRetryOnTransportError = true and
maxAttempts = 3, three consecutive transport timeouts do NOT end in the
RetriesExhausted failure — the third timeout is re-raised as the network
error itself. -/
theorem three_timeouts_not_retries_exceeded :
    (submit_request ⟨true, [10002, 10006], [], 3, 3, 5000⟩
        (fun _ => .netError) (fun _ => 0)).outcome = .networkError ∧
    (submit_request ⟨true, [10002, 10006], [], 3, 3, 5000⟩
        (fun _ => .netError) (fun _ => 0)).outcome ≠ .retriesExceeded := by
  exact ⟨by decide, by decide⟩

/-- C6 (amended): with forceRetryOnTransportError = true and
maxAttempts = 3, three consecutive transport timeouts yield the
propagated NetworkError terminal failure (not RetriesExhausted): exactly
three sends, two backoff sleeps, and the response classifier is never
reached. -/
theorem three_timeouts_propagate_network_error (rc ic : List Int) (rd rwv : Int)
    (events : Nat → TransportResult) (now : Nat → Int)
    (hev : ∀ i, events i = .netError) :
    submit_request ⟨true, rc, ic, 3, rd, rwv⟩ events now =
      ⟨.networkError, 3, List.replicate 2 (rd * 1000), List.replicate 3 rwv, 0⟩ :=
  submitLoop_all_netError ⟨true, rc, ic, 3, rd, rwv⟩ events now rfl hev 2 0 rwv

/-- C6 witness: the amended statement at a concrete timeout stream. -/
theorem three_timeouts_propagate_network_error_witness :
    submit_request ⟨true, [10002], [], 3, 3, 5000⟩ (fun _ => .netError) (fun _ => 0) =
      ⟨.networkError, 3, List.replicate 2 (3 * 1000), List.replicate 3 5000, 0⟩ :=
  three_timeouts_propagate_network_error [10002] [] 3 5000
    (fun _ => .netError) (fun _ => 0) (fun _ => rfl)

/-- C7: a decoded response whose non-zero retCode is in the configured
ignorable set (and not in the retryable set) returns Success with the
decoded envelope unchanged — one send, no sleep — exactly the trace a
retCode-0 response produces. -/
theorem ignorable_code_success (cfg : Manager) (events : Nat → TransportResult)
    (now : Nat → Int) (fuel idx : Nat) (rw : Int) (j : ResponseJson) (hdr : Option Int)
    (hev : events idx = .reply 200 (.json j) hdr)
    (h0 : j.retCode ≠ 0) (hig : j.retCode ∈ cfg.ignore_codes)
    (hnr : j.retCode ∉ cfg.retry_codes) :
    submitLoop cfg events now (fuel + 1) idx rw = ⟨.success j, 1, [], [rw], 1⟩ ∧
    ∀ (events0 : Nat → TransportResult) (j0 : ResponseJson) (hdr0 : Option Int),
      events0 idx = .reply 200 (.json j0) hdr0 → j0.retCode = 0 →
      submitLoop cfg events0 now (fuel + 1) idx rw = ⟨.success j0, 1, [], [rw], 1⟩ := by
  constructor
  · have hhr : handle_response cfg (.json j) hdr (now idx) rw = .success j := by
      simp [handle_response, h0, hig, hnr]
    simp [submitLoop, hev, check_status_code, hhr]
  · intro events0 j0 hdr0 hev0 h00
    have hhr : handle_response cfg (.json j0) hdr0 (now idx) rw = .success j0 := by
      simp [handle_response, h00]
    simp [submitLoop, hev0, check_status_code, hhr]

/-- C7 witness: retCode 30000 configured ignorable returns the envelope
as-is, with the same trace shape as a retCode-0 response. -/
theorem ignorable_code_success_witness :
    submitLoop ⟨false, [10002], [30000], 3, 3, 5000⟩
        (fun _ => .reply 200 (.json ⟨30000, "ignored", "r"⟩) none) (fun _ => 0)
        3 0 5000 = ⟨.success ⟨30000, "ignored", "r"⟩, 1, [], [5000], 1⟩ ∧
    submitLoop ⟨false, [10002], [30000], 3, 3, 5000⟩
        (fun _ => .reply 200 (.json ⟨0, "OK", "r"⟩) none) (fun _ => 0)
        3 0 5000 = ⟨.success ⟨0, "OK", "r"⟩, 1, [], [5000], 1⟩ := by
  have h := ignorable_code_success ⟨false, [10002], [30000], 3, 3, 5000⟩
    (fun _ => .reply 200 (.json ⟨30000, "ignored", "r"⟩) none) (fun _ => 0)
    2 0 5000 ⟨30000, "ignored", "r"⟩ none rfl (by decide) (by decide) (by decide)
  exact ⟨h.1, h.2 _ ⟨0, "OK", "r"⟩ none rfl rfl⟩

/-- Two strings with the same character list are equal. -/
theorem eq_of_data_eq {a b : String} (h : a.data = b.data) : a = b := by
  cases a; cases b; simp at h; rw [h]

/-- C8: GET canonicalization is deterministic and independent of the
input key ordering: on mappings with the same entries (distinct keys, as
a dict guarantees), any input permutation encodes to the identical
string. -/
theorem get_encoding_perm_invariant (ps qs : List (String × Value))
    (hperm : ps.Perm qs) (hnd : (ps.map Prod.fst).Nodup) :
    (prepare_payload "GET" ps).1 = (prepare_payload "GET" qs).1 := by
  suffices h : List.insertionSort (fun a b : String × Value => a.1.data ≤ b.1.data) ps
      = List.insertionSort (fun a b : String × Value => a.1.data ≤ b.1.data) qs by
    simp [prepare_payload, h]
  haveI : IsTotal (String × Value) (fun a b => a.1.data ≤ b.1.data) :=
    ⟨fun a b => le_total a.1.data b.1.data⟩
  haveI : IsTrans (String × Value) (fun a b => a.1.data ≤ b.1.data) :=
    ⟨fun _ _ _ hab hbc => le_trans hab hbc⟩
  haveI : IsAntisymm (String × Value) (fun a b => a.1.data ≤ b.1.data ∧ a.1 ≠ b.1) :=
    ⟨fun a b h1 h2 => by
      have hdata : a.1.data = b.1.data := le_antisymm h1.1 h2.1
      exact (h1.2 (eq_of_data_eq hdata)).elim⟩
  have hnd2 : (qs.map Prod.fst).Nodup := ((hperm.map Prod.fst).nodup_iff).mp hnd
  have hne1 : ps.Pairwise (fun a b : String × Value => a.1 ≠ b.1) :=
    List.pairwise_map.mp hnd
  have hne2 : qs.Pairwise (fun a b : String × Value => a.1 ≠ b.1) :=
    List.pairwise_map.mp hnd2
  have hs1 : (List.insertionSort (fun a b : String × Value => a.1.data ≤ b.1.data) ps).Pairwise
      (fun a b => a.1.data ≤ b.1.data) :=
    List.sorted_insertionSort _ ps
  have hs2 : (List.insertionSort (fun a b : String × Value => a.1.data ≤ b.1.data) qs).Pairwise
      (fun a b => a.1.data ≤ b.1.data) :=
    List.sorted_insertionSort _ qs
  have hne1s : (List.insertionSort (fun a b : String × Value => a.1.data ≤ b.1.data) ps).Pairwise
      (fun a b => a.1 ≠ b.1) :=
    (((List.perm_insertionSort _ ps).pairwise_iff (fun hab => hab.symm)).mpr) hne1
  have hne2s : (List.insertionSort (fun a b : String × Value => a.1.data ≤ b.1.data) qs).Pairwise
      (fun a b => a.1 ≠ b.1) :=
    (((List.perm_insertionSort _ qs).pairwise_iff (fun hab => hab.symm)).mpr) hne2
  have hp : (List.insertionSort (fun a b : String × Value => a.1.data ≤ b.1.data) ps).Perm
      (List.insertionSort (fun a b : String × Value => a.1.data ≤ b.1.data) qs) :=
    (List.perm_insertionSort _ ps).trans (hperm.trans (List.perm_insertionSort _ qs).symm)
  exact List.eq_of_perm_of_sorted hp (hs1.and hne1s) (hs2.and hne2s)

/-- C8 witness: the two orderings of the spec's example mapping encode to
the same string, `category=spot&symbol=BTCUSDT`. -/
theorem get_encoding_perm_invariant_witness :
    (prepare_payload "GET" [("symbol", Value.str "BTCUSDT"), ("category", Value.str "spot")]).1
      = (prepare_payload "GET" [("category", Value.str "spot"), ("symbol", Value.str "BTCUSDT")]).1 ∧
    (prepare_payload "GET" [("symbol", Value.str "BTCUSDT"), ("category", Value.str "spot")]).1
      = "category=spot&symbol=BTCUSDT" :=
  ⟨get_encoding_perm_invariant
      [("symbol", Value.str "BTCUSDT"), ("category", Value.str "spot")]
      [("category", Value.str "spot"), ("symbol", Value.str "BTCUSDT")]
      (by decide) (by decide),
   by decide⟩

/-- C9 counterexample: for a write method, `prepare_payload` does have a
side effect on its input: the mapping with a numeric `qty` is mutated in
place by `cast_values`, so it is not unchanged after encoding. -/
theorem prepare_payload_mutates_input :
    (prepare_payload "POST" [("qty", Value.int 1)]).2 ≠ [("qty", Value.int 1)] := by
  decide

/-- C9 (amended): the encoded payload is a deterministic function of the
inputs, but the input mapping is not left unchanged in general: for write
methods `cast_values` mutates exactly the `qty`/`price` entries in place
(coercing them to strings), every entry under any other key is unchanged,
the key sequence is preserved, and `_clean_query`'s in-place float fix
also preserves the key sequence. -/
theorem prepare_payload_frame (method : String) (ps : List (String × Value)) :
    ((prepare_payload method ps).2.map Prod.fst = ps.map Prod.fst) ∧
    (∀ kv ∈ (prepare_payload method ps).2, kv.1 ≠ "qty" → kv.1 ≠ "price" → kv ∈ ps) ∧
    ((clean_query (some ps)).1.map Prod.fst = ps.map Prod.fst) := by
  refine ⟨?_, ?_, ?_⟩
  · by_cases h : method = "GET"
    · simp [prepare_payload, h]
    · have h2 : (prepare_payload method ps).2 = cast_values ps := by
        simp [prepare_payload, h]
      rw [h2]
      simp only [cast_values, List.map_map]
      refine List.map_congr_left fun kv _ => ?_
      by_cases hc : kv.1 ∈ string_params ∧ kv.2.isStr = false <;> simp [hc, Function.comp]
  · intro kv hkv hq hp
    by_cases h : method = "GET"
    · simpa [prepare_payload, h] using hkv
    · have hkv2 : kv ∈ cast_values ps := by simpa [prepare_payload, h] using hkv
      rcases List.mem_map.mp hkv2 with ⟨ab, habm, habe⟩
      by_cases hc : ab.1 ∈ string_params ∧ ab.2.isStr = false
      · rw [if_pos hc] at habe
        have hk : kv.1 = ab.1 := by rw [← habe]
        have hcm := hc.1
        simp only [string_params, List.mem_cons, List.not_mem_nil, or_false] at hcm
        rcases hcm with h1 | h1
        · exact absurd (hk.trans h1) hq
        · exact absurd (hk.trans h1) hp
      · rw [if_neg hc] at habe
        exact habe ▸ habm
  · simp only [clean_query, List.map_map]
    exact List.map_congr_left fun kv _ => rfl

/-- C9 witness: on a POST mapping, keys are preserved in order and the
non-qty/price entry is returned untouched, hence still in the input. -/
theorem prepare_payload_frame_witness :
    ((prepare_payload "POST" [("qty", Value.int 1), ("side", Value.str "Buy")]).2.map Prod.fst
      = ["qty", "side"]) ∧
    ("side", Value.str "Buy") ∈ [("qty", Value.int 1), ("side", Value.str "Buy")] := by
  have h := prepare_payload_frame "POST" [("qty", Value.int 1), ("side", Value.str "Buy")]
  exact ⟨h.1.trans (by decide),
    h.2.1 ("side", Value.str "Buy") (by decide) (by decide) (by decide)⟩

/-- C10: at construction, an empty retryable-code set is replaced by the
built-in default set, a non-empty one is kept, the effective retryable
set is never empty, and the ignorable set is preserved (an empty one
stays empty). -/
theorem post_init_codes_spec :
    post_init_retry_codes [] = [10002, 10006, 30034, 30035, 130035, 130150] ∧
    (∀ r : List Int, r ≠ [] → post_init_retry_codes r = r) ∧
    (∀ r : List Int, post_init_retry_codes r ≠ []) ∧
    (∀ i : List Int, post_init_ignore_codes i = i) := by
  refine ⟨rfl, fun r hr => ?_, fun r => ?_, fun i => ?_⟩
  · simp [post_init_retry_codes, hr]
  · by_cases h : r = [] <;> simp [post_init_retry_codes, h, default_retry_codes]
  · by_cases h : i = [] <;> simp [post_init_ignore_codes, h]

/-- C10 witness: a supplied non-empty set is kept, and the effective set
built from an empty one is non-empty. -/
theorem post_init_codes_spec_witness :
    post_init_retry_codes [42] = [42] ∧ post_init_retry_codes [] ≠ [] :=
  ⟨post_init_codes_spec.2.1 [42] (by decide), post_init_codes_spec.2.2.1 []⟩

end ABFinance
